import Mathlib

/-!
Verification of `lm_classification/utils/api.py`: the retry wrapper
`openai_method_retry`, the cost-confirmation gate `_openai_api_call_is_ok`,
and the batching orchestration `gpt3_complete`, shallowly embedded in Lean.
-/

namespace LMC

/-- Error kinds raised by the remote client.  `serviceUnavailable` embeds
`openai.error.ServiceUnavailableError`, `rateLimit` embeds
`openai.error.RateLimitError`, `other` stands for every other error kind.
The `id` field distinguishes distinct error objects. -/
inductive OpenAIError where
  | serviceUnavailable (id : Nat)
  | rateLimit (id : Nat)
  | other (id : Nat)
  deriving DecidableEq, Repr

/-- Whether an error is caught by the `except (ServiceUnavailableError,
RateLimitError)` clause at `api.py:52-53`. -/
def isTransient : OpenAIError → Bool
  | .serviceUnavailable _ => true
  | .rateLimit _ => true
  | .other _ => false

/-- How a call to `openai_method_retry` terminates: a returned value, a
raised `openai` error, or Python's `UnboundLocalError` from the
`raise exception` at `api.py:60` when `exception` was never assigned. -/
inductive RetryOutcome (α : Type) where
  | success (a : α)
  | raised (e : OpenAIError)
  | unboundLocal
  deriving DecidableEq, Repr

/-- Result of a run of `openai_method_retry`, together with how many times
the wrapped method was invoked and how many times `time.sleep` ran. -/
structure RetryResult (α : Type) where
  outcome : RetryOutcome α
  numInvocations : Nat
  numSleeps : Nat
  deriving DecidableEq, Repr

/-- The `while num_tries < max_num_tries` loop of `openai_method_retry`
(`api.py:48-60`).  `op k` is the result of the `(k+1)`-st invocation of
`openai_method(**openai_method_kwargs)`.  `fuel` is the number of loop
iterations remaining (`max_num_tries - num_tries`), `k` the number of
invocations already made, and `exc` the current value of the local
variable `exception` (`none` while unassigned).  Each transient failure
increments `num_tries`, sleeps, and stores the error in `exception`;
a success returns; a non-transient error propagates out of the loop. -/
def retryGo (op : Nat → Except OpenAIError α) :
    Nat → Nat → Option OpenAIError → RetryResult α
  | 0, _, exc =>
    { outcome := match exc with
                 | none => .unboundLocal
                 | some e => .raised e
      numInvocations := 0
      numSleeps := 0 }
  | fuel + 1, k, _ =>
    match op k with
    | .ok a => { outcome := .success a, numInvocations := 1, numSleeps := 0 }
    | .error e =>
      if isTransient e then
        let r := retryGo op fuel (k + 1) (some e)
        { outcome := r.outcome
          numInvocations := r.numInvocations + 1
          numSleeps := r.numSleeps + 1 }
      else
        { outcome := .raised e, numInvocations := 1, numSleeps := 0 }

/-- `openai_method_retry` (`api.py:40-60`): `num_tries` starts at 0, the loop
runs while `num_tries < max_num_tries` (so `max_num_tries.toNat` iterations
at most, since `num_tries` increases by exactly one per iteration), and the
local `exception` starts unassigned. -/
def openai_method_retry (op : Nat → Except OpenAIError α)
    (max_num_tries : Int) : RetryResult α :=
  retryGo op max_num_tries.toNat 0 none

/-- A concrete remote operation that fails with a rate-limit error on every
invocation; the error object of the `(k+1)`-st invocation is `rateLimit k`. -/
def alwaysRateLimit : Nat → Except OpenAIError Unit :=
  fun k => .error (.rateLimit k)

example : openai_method_retry alwaysRateLimit 3 =
    ⟨.raised (.rateLimit 2), 3, 3⟩ := by decide

example : openai_method_retry alwaysRateLimit 1 =
    ⟨.raised (.rateLimit 0), 1, 1⟩ := by decide

example : openai_method_retry alwaysRateLimit 0 = ⟨.unboundLocal, 0, 0⟩ := by
  decide

example : openai_method_retry (fun _ => .ok (7 : Nat)) 5 =
    ⟨.success 7, 1, 0⟩ := by decide

/-- If every invocation fails with a transient error (`op j` raises `err j`),
a run with `fuel ≥ 1` iterations remaining and `k` invocations already made
ends raising the error of the last invocation after exactly `fuel` further
invocations and `fuel` further sleeps. -/
theorem retryGo_allFail (op : Nat → Except OpenAIError α)
    (err : Nat → OpenAIError)
    (hop : ∀ j, op j = .error (err j))
    (htr : ∀ j, isTransient (err j) = true) :
    ∀ fuel k exc, 1 ≤ fuel →
      retryGo op fuel k exc = ⟨.raised (err (k + fuel - 1)), fuel, fuel⟩ := by
  intro fuel
  induction fuel with
  | zero => intro k exc h; omega
  | succ f ih =>
    intro k exc _
    rcases Nat.eq_zero_or_pos f with hf | hf
    · subst hf
      rw [show k + (0 + 1) - 1 = k from by omega]
      simp only [retryGo, hop k, htr k, if_true]
    · have hrec := ih (k + 1) (some (err k)) hf
      simp only [retryGo, hop k, htr k, if_true, hrec]
      have : k + 1 + f - 1 = k + (f + 1) - 1 := by omega
      rw [this]

/-- If the first `n` invocations starting at index `k` fail transiently and
the `(n+1)`-st succeeds with `a`, a run with more than `n` iterations of fuel
returns `a` after `n + 1` invocations and `n` sleeps. -/
theorem retryGo_failThenOk (op : Nat → Except OpenAIError α) (a : α) :
    ∀ n (err : Nat → OpenAIError) fuel k exc,
      (∀ j, j < n → op (k + j) = .error (err j) ∧ isTransient (err j) = true) →
      op (k + n) = .ok a → n < fuel →
      retryGo op fuel k exc = ⟨.success a, n + 1, n⟩ := by
  intro n
  induction n with
  | zero =>
    intro err fuel k exc _ hok hfuel
    obtain ⟨f, rfl⟩ := Nat.exists_eq_add_of_lt hfuel
    simp only [Nat.add_zero] at hok
    simp only [retryGo, hok]
  | succ m ih =>
    intro err fuel k exc hfail hok hfuel
    obtain ⟨f, rfl⟩ := Nat.exists_eq_add_of_lt hfuel
    have h0 := hfail 0 (Nat.succ_pos m)
    simp only [Nat.add_zero] at h0
    have hrec := ih (fun j => err (j + 1)) (m + 1 + f) (k + 1) (some (err 0))
      (fun j hj => by
        have := hfail (j + 1) (by omega)
        rw [show k + (j + 1) = k + 1 + j from by omega] at this
        exact this)
      (by rw [show k + 1 + m = k + (m + 1) from by omega]; exact hok)
      (by omega)
    simp only [retryGo, h0.1, h0.2, if_true, hrec]

/-- The cost-per-1000-tokens mapping `model_to_cost_per_1k` (`api.py:30-37`):
`dict(zip(get_args(Model), [0.0004, 0.0005, 0.002, 0.02]))`, with `dict.get`
returning `none` for identifiers outside the mapping. -/
def model_to_cost_per_1k : String → Option ℚ
  | "text-ada-001" => some (4 / 10000)
  | "text-babbage-001" => some (5 / 10000)
  | "text-curie-001" => some (2 / 1000)
  | "text-davinci-003" => some (2 / 100)
  | _ => none

/-- Python's `round(x, 2)` (`api.py:81`): round to the nearest multiple of
1/100 (tie-breaking on exact halves is a float artifact outside this model). -/
def round2 (q : ℚ) : ℚ := (round (q * 100) : ℚ) / 100

/-- The cost string interpolated into the prompt at `api.py:84`: the literal
`'unknown'` when the model has no cost entry, otherwise a dollar amount. -/
inductive CostDisplay where
  | unknown
  | amount (dollars : ℚ)
  deriving DecidableEq, Repr

/-- The `while output not in \x7b'y', 'n'\x7d` loop of `_openai_api_call_is_ok`
(`api.py:82-85`), run against the stream `inputs` of operator answers.
Returns the first answer that is exactly `"y"` or `"n"` together with the
number of times the prompt was presented to reach it; `none` when the
stream is exhausted without such an answer. -/
def prompt_loop : List String → Option (String × Nat)
  | [] => none
  | x :: xs =>
    if x = "y" ∨ x = "n" then some (x, 1)
    else match prompt_loop xs with
         | none => none
         | some (ans, n) => some (ans, n + 1)

/-- How `_openai_api_call_is_ok` terminates: it returns (`proceeded`), it
raises `UserCanceled` (`userCanceled`), or the operator stream ran out
before a `"y"`/`"n"` answer (`noAnswer`: the Python loop keeps prompting). -/
inductive GateOutcome where
  | proceeded
  | userCanceled
  | noAnswer
  deriving DecidableEq, Repr

/-- Observable behaviour of one run of `_openai_api_call_is_ok`: the token
estimate and cost it displays, how it terminates, and how many times the
confirmation prompt was presented. -/
structure ApiOkResult where
  num_tokens : Nat
  cost : CostDisplay
  outcome : GateOutcome
  numPrompts : Nat
  deriving DecidableEq, Repr

/-- `_openai_api_call_is_ok` (`api.py:67-87`).  `tokenize t` is the token-id
list `gpt2_tokenizer([... t ...])['input_ids'][i]` for text `t`; the
estimate is `sum(len(tokens) ...)` plus `len(texts) * max_tokens`, the cost
is `'unknown'` when `model_to_cost_per_1k.get(model)` is `None` and
`round(num_tokens * cost_per_1k_tokens / 1_000, 2)` otherwise, and the
prompt loop runs until the operator answers exactly `'y'` or `'n'`,
raising `UserCanceled` on `'n'`. -/
def openai_api_call_is_ok (tokenize : String → List Nat) (model : String)
    (texts : List String) (max_tokens : Nat)
    (inputs : List String) : ApiOkResult :=
  let num_tokens_prompts := ((texts.map tokenize).map List.length).sum
  let num_tokens_completions := texts.length * max_tokens
  let num_tokens := num_tokens_prompts + num_tokens_completions
  let cost : CostDisplay :=
    match model_to_cost_per_1k model with
    | none => .unknown
    | some cost_per_1k_tokens =>
      .amount (round2 ((num_tokens : ℚ) * cost_per_1k_tokens / 1000))
  match prompt_loop inputs with
  | none =>
    { num_tokens := num_tokens, cost := cost, outcome := .noAnswer
      numPrompts := inputs.length }
  | some (ans, n) =>
    { num_tokens := num_tokens, cost := cost
      outcome := if ans = "n" then .userCanceled else .proceeded
      numPrompts := n }

/-- Recursion core of `batch_constant` for chunk size `k + 1`: peel off the
first `k + 1` items as a chunk and recurse on the rest.  `fuel` bounds the
recursion depth structurally; any `fuel ≥` the list length is enough, since
every step drops at least one item. -/
def batch_go (k : Nat) : Nat → List α → List (List α)
  | 0, _ => []
  | _ + 1, [] => []
  | fuel + 1, x :: xs =>
    (x :: xs).take (k + 1) :: batch_go k fuel ((x :: xs).drop (k + 1))

/-- Modelled from the spec: `batch.constant` from
`lm_classification.utils.batch` is not part of the sources at hand; per the
spec it yields consecutive chunks of the given size in order, the last chunk
possibly smaller, non-overlapping, with concatenation reproducing the input
(chunk size `k ≤ 0` is an invalid-argument error, which no caller here
exercises: `gpt3_complete` always passes 20). -/
def batch_constant (xs : List α) (k : Nat) : List (List α) :=
  match k with
  | 0 => []
  | k + 1 => batch_go k xs.length xs

example : batch_constant [1, 2, 3, 4, 5] 2 = [[1, 2], [3, 4], [5]] := by decide
example : batch_constant ([] : List Nat) 2 = [] := by decide

/-- The `texts` argument of `gpt3_complete`: a `Sequence[str]` that is
either a bare string or a list of strings. -/
inductive TextsArg where
  | str (s : String)
  | list (ts : List String)

/-- The `isinstance(texts, str)` normalization at `api.py:104-106`: a bare
string becomes a one-element list, a list passes through unchanged. -/
def normalize_texts : TextsArg → List String
  | .str s => [s]
  | .list ts => ts

/-- How a call to `gpt3_complete` terminates: the aggregated `choices` list,
the `UserCanceled` raised by the cost gate, or the gate stuck prompting. -/
inductive GptOutcome (χ : Type) where
  | ok (choices : List χ)
  | userCanceled
  | noAnswer
  deriving DecidableEq, Repr

/-- Observable behaviour of one run of `gpt3_complete`: how it terminates
and how many remote completion calls it issued. -/
structure Gpt3Result (χ : Type) where
  outcome : GptOutcome χ
  numRemoteCalls : Nat
  deriving DecidableEq, Repr

/-- `gpt3_complete` (`api.py:90-119`).  `endpoint b` stands for
`openai_method_retry(openai.Completion.create, prompt=b, ...)['choices']`,
i.e. the per-batch `choices` list of a successful remote completion call
(`χ` is the opaque choice type).  The batch size is the constant 20, a bare
string is normalized to a one-element list, the optional cost gate runs
before any remote call, and the per-batch `choices` are concatenated with
`choices.extend(response['choices'])` in batch order. -/
def gpt3_complete (endpoint : List String → List χ) (texts : TextsArg)
    (model : String) (ask_if_ok : Bool) (max_tokens : Nat)
    (tokenize : String → List Nat) (inputs : List String) : Gpt3Result χ :=
  let batch_size := 20
  let ts := normalize_texts texts
  let run : Gpt3Result χ :=
    let batches := batch_constant ts batch_size
    { outcome := .ok (batches.map endpoint).flatten
      numRemoteCalls := batches.length }
  if ask_if_ok then
    match (openai_api_call_is_ok tokenize model ts max_tokens inputs).outcome with
    | .userCanceled => { outcome := .userCanceled, numRemoteCalls := 0 }
    | .noAnswer => { outcome := .noAnswer, numRemoteCalls := 0 }
    | .proceeded => run
  else
    run

/-- A remote operation that fails transiently on its first two invocations
and then succeeds with the value 42. -/
def failTwiceThenOk : Nat → Except OpenAIError Nat :=
  fun k => if k < 2 then .error (.serviceUnavailable k) else .ok 42

/-- A remote operation whose every invocation fails with a non-transient
error kind. -/
def failOther : Nat → Except OpenAIError Unit :=
  fun k => .error (.other k)

/-- With enough fuel, concatenating the chunks produced by `batch_go`
reproduces the input list. -/
theorem batch_go_flatten (k : Nat) :
    ∀ fuel (xs : List α), xs.length ≤ fuel →
      (batch_go k fuel xs).flatten = xs := by
  intro fuel
  induction fuel with
  | zero =>
    intro xs h
    rw [List.eq_nil_of_length_eq_zero (Nat.le_zero.mp h)]
    rfl
  | succ f ih =>
    intro xs h
    cases xs with
    | nil => rfl
    | cons x xs =>
      simp only [batch_go, List.flatten_cons]
      rw [ih ((x :: xs).drop (k + 1))
        (by simp only [List.length_drop, List.length_cons] at *; omega)]
      exact List.take_append_drop _ _

/-- With enough fuel, `batch_go` with chunk size `k + 1` on a list of
length `N` produces exactly `(N + k) / (k + 1)` chunks, i.e. `⌈N/(k+1)⌉`. -/
theorem batch_go_length (k : Nat) :
    ∀ fuel (xs : List α), xs.length ≤ fuel →
      (batch_go k fuel xs).length = (xs.length + k) / (k + 1) := by
  intro fuel
  induction fuel with
  | zero =>
    intro xs h
    rw [List.eq_nil_of_length_eq_zero (Nat.le_zero.mp h)]
    simp [batch_go, Nat.div_eq_of_lt (Nat.lt_succ_self k)]
  | succ f ih =>
    intro xs h
    cases xs with
    | nil => simp [batch_go, Nat.div_eq_of_lt (Nat.lt_succ_self k)]
    | cons x xs =>
      have hdrop : ((x :: xs).drop (k + 1)).length = xs.length + 1 - (k + 1) := by
        simp [List.length_drop]
      simp only [batch_go, List.length_cons,
        ih ((x :: xs).drop (k + 1))
          (by simp only [List.length_drop, List.length_cons] at *; omega),
        hdrop]
      rcases le_or_lt (xs.length + 1) (k + 1) with h1 | h1
      · have hz : xs.length + 1 - (k + 1) = 0 := by omega
        have hone : (xs.length + 1 + k) / (k + 1) = 1 :=
          Nat.div_eq_of_lt_le (by omega) (by omega)
        rw [hz, Nat.zero_add, Nat.div_eq_of_lt (Nat.lt_succ_self k), hone]
      · have he : xs.length + 1 - (k + 1) + k = xs.length := by omega
        have he2 : xs.length + 1 + k = xs.length + (k + 1) := by omega
        rw [he, he2, Nat.add_div_right _ (Nat.succ_pos k)]

/-- Concatenating the chunks of `batch_constant` with a positive chunk size
reproduces the input list. -/
theorem batch_constant_flatten (xs : List α) (k : Nat) :
    (batch_constant xs (k + 1)).flatten = xs :=
  batch_go_flatten k xs.length xs le_rfl

/-- `batch_constant` with chunk size `k + 1` on a list of length `N`
produces `(N + k) / (k + 1) = ⌈N / (k+1)⌉` chunks. -/
theorem batch_constant_length (xs : List α) (k : Nat) :
    (batch_constant xs (k + 1)).length = (xs.length + k) / (k + 1) :=
  batch_go_length k xs.length xs le_rfl

/-- When the operator first gives answers that are not exactly `"y"` or
`"n"` and then an answer that is, the prompt loop stops at that first
`"y"`/`"n"` answer, having presented the prompt once per preceding answer
plus once for the deciding one. -/
theorem prompt_loop_append (pre : List String)
    (hpre : ∀ x ∈ pre, x ≠ "y" ∧ x ≠ "n") (ans : String)
    (hans : ans = "y" ∨ ans = "n") (rest : List String) :
    prompt_loop (pre ++ ans :: rest) = some (ans, pre.length + 1) := by
  induction pre with
  | nil =>
    simp only [List.nil_append, prompt_loop, if_pos hans, List.length_nil]
  | cons x xs ih =>
    have hx := hpre x (List.mem_cons_self x xs)
    simp only [List.cons_append, prompt_loop]
    rw [if_neg (by tauto), List.append_eq,
      ih (fun y hy => hpre y (List.mem_cons_of_mem x hy))]
    simp [Nat.add_comm]

/-- C1 (counterexample): the claim that an always-transiently-failing
operation with `max_num_tries = m` sleeps exactly `m - 1` times fails at
`m = 1`: `time.sleep` runs inside the `except` block after every transient
failure, including the final one, so one invocation already sleeps once. -/
theorem c1_counterexample :
    ¬ (openai_method_retry alwaysRateLimit 1).numSleeps = 1 - 1 := by decide

/-- C1 (amended): for every zero-argument remote operation that always
fails with a transient error, `openai_method_retry` with
`max_num_tries = m ≥ 1` raises after exactly `m` invocations of the
operation and performs exactly `m` sleeps (one after each transient
failure, the last one included). -/
theorem c1_retry_exhaustion_counts (op : Nat → Except OpenAIError α)
    (err : Nat → OpenAIError) (hop : ∀ j, op j = .error (err j))
    (htr : ∀ j, isTransient (err j) = true) (m : Nat) (hm : 1 ≤ m) :
    openai_method_retry op (m : Int) = ⟨.raised (err (m - 1)), m, m⟩ := by
  unfold openai_method_retry
  rw [Int.toNat_natCast]
  have h := retryGo_allFail op err hop htr m 0 none hm
  rwa [Nat.zero_add] at h

/-- Witness for C1's amended theorem at the always-rate-limited operation
with `max_num_tries = 3`. -/
theorem c1_witness :
    openai_method_retry alwaysRateLimit (3 : Int) =
      ⟨.raised (.rateLimit 2), 3, 3⟩ :=
  c1_retry_exhaustion_counts alwaysRateLimit (fun k => .rateLimit k)
    (fun _ => rfl) (fun _ => rfl) 3 (by decide)

/-- C2: for every zero-argument remote operation that fails with a
transient error exactly `n` times and then succeeds, with
`n < max_num_tries`, `openai_method_retry` returns the operation's success
value and performs exactly `n` sleeps. -/
theorem c2_retry_success_counts (op : Nat → Except OpenAIError α)
    (err : Nat → OpenAIError) (a : α) (n m : Nat)
    (hfail : ∀ j, j < n → op j = .error (err j) ∧ isTransient (err j) = true)
    (hok : op n = .ok a) (hnm : n < m) :
    openai_method_retry op (m : Int) = ⟨.success a, n + 1, n⟩ := by
  unfold openai_method_retry
  rw [Int.toNat_natCast]
  exact retryGo_failThenOk op a n err m 0 none
    (fun j hj => by rw [Nat.zero_add]; exact hfail j hj)
    (by rw [Nat.zero_add]; exact hok) hnm

/-- Witness for C2 at an operation failing transiently twice then
returning 42, with `max_num_tries = 5`. -/
theorem c2_witness :
    openai_method_retry failTwiceThenOk (5 : Int) = ⟨.success 42, 3, 2⟩ :=
  c2_retry_success_counts failTwiceThenOk (fun k => .serviceUnavailable k)
    42 2 5 (fun j hj => ⟨if_pos hj, rfl⟩) rfl (by decide)

/-- C3: a first invocation failing with any error kind other than
service-unavailable or rate-limit propagates immediately: one invocation,
zero sleeps, zero retries, the error unchanged. -/
theorem c3_nontransient_immediate (op : Nat → Except OpenAIError α)
    (e : OpenAIError) (hop : op 0 = .error e) (hte : isTransient e = false)
    (m : Nat) (hm : 1 ≤ m) :
    openai_method_retry op (m : Int) = ⟨.raised e, 1, 0⟩ := by
  unfold openai_method_retry
  rw [Int.toNat_natCast]
  obtain ⟨f, rfl⟩ := Nat.exists_eq_add_of_le hm
  rw [Nat.add_comm]
  simp only [retryGo, hop, hte, Bool.false_eq_true, if_false]

/-- Witness for C3 at an operation raising a non-transient error, with
`max_num_tries = 5`. -/
theorem c3_witness :
    openai_method_retry failOther (5 : Int) = ⟨.raised (.other 0), 1, 0⟩ :=
  c3_nontransient_immediate failOther (.other 0) rfl rfl 5 (by decide)

/-- C4: on exhaustion, the error object raised by `openai_method_retry`
is exactly the error observed on the last (`m`-th) invocation, unchanged. -/
theorem c4_last_error_unchanged (op : Nat → Except OpenAIError α)
    (err : Nat → OpenAIError) (hop : ∀ j, op j = .error (err j))
    (htr : ∀ j, isTransient (err j) = true) (m : Nat) (hm : 1 ≤ m) :
    (openai_method_retry op (m : Int)).outcome = .raised (err (m - 1)) := by
  unfold openai_method_retry
  rw [Int.toNat_natCast]
  have h := retryGo_allFail op err hop htr m 0 none hm
  rw [Nat.zero_add] at h
  rw [h]

/-- Witness for C4 at the always-rate-limited operation with
`max_num_tries = 4`: the raised error is the one from the 4th invocation. -/
theorem c4_witness :
    (openai_method_retry alwaysRateLimit (4 : Int)).outcome =
      .raised (.rateLimit 3) :=
  c4_last_error_unchanged alwaysRateLimit (fun k => .rateLimit k)
    (fun _ => rfl) (fun _ => rfl) 4 (by decide)

/-- C9: with `max_num_tries ≤ 0` the `while` loop body never runs, the
remote operation is never invoked (and nothing sleeps), and the
`raise exception` at `api.py:60` hits the never-assigned local
`exception`, raising an unbound-local error. -/
theorem c9_nonpositive_unbound_local (op : Nat → Except OpenAIError α)
    (max_num_tries : Int) (hm : max_num_tries ≤ 0) :
    openai_method_retry op max_num_tries = ⟨.unboundLocal, 0, 0⟩ := by
  unfold openai_method_retry
  rw [Int.toNat_of_nonpos hm]
  rfl

/-- Witness for C9 at `max_num_tries = -3`. -/
theorem c9_witness :
    openai_method_retry alwaysRateLimit (-3 : Int) = ⟨.unboundLocal, 0, 0⟩ :=
  c9_nonpositive_unbound_local alwaysRateLimit (-3) (by decide)

/-- C5: over a list of `N` input texts, when each remote call returns
exactly one choice per prompt in prompt order (`endpoint b = b.map
choiceOf`), `gpt3_complete` issues exactly `⌈N/20⌉ = (N + 19) / 20` remote
calls and returns the `N`-element list whose `i`-th entry is the choice for
the `i`-th text. -/
theorem c5_orchestration_batches (endpoint : List String → List χ)
    (choiceOf : String → χ) (hend : ∀ b, endpoint b = b.map choiceOf)
    (ts : List String) (model : String) (max_tokens : Nat)
    (tokenize : String → List Nat) (inputs : List String) :
    gpt3_complete endpoint (.list ts) model false max_tokens tokenize inputs =
      ⟨.ok (ts.map choiceOf), (ts.length + 19) / 20⟩ := by
  unfold gpt3_complete
  simp only [Bool.false_eq_true, if_false, normalize_texts]
  rw [funext hend]
  rw [show (20 : Nat) = 19 + 1 from rfl]
  rw [← List.map_flatten, batch_constant_flatten, batch_constant_length]

/-- Witness for C5 at three texts with the identity choice function: one
remote call, three choices in input order. -/
theorem c5_witness :
    gpt3_complete (fun b => b.map (fun s => s)) (.list ["a", "b", "c"])
      "text-ada-001" false 0 (fun _ => []) [] =
      ⟨.ok ["a", "b", "c"], 1⟩ :=
  c5_orchestration_batches (fun b => b.map (fun s => s)) (fun s => s)
    (fun _ => rfl) ["a", "b", "c"] "text-ada-001" 0 (fun _ => []) []

/-- C6: a bare string `s` passed as `texts` behaves exactly as the
one-element list `[s]` would, for every choice of the remaining arguments:
it is never iterated character-by-character. -/
theorem c6_bare_string_normalized (endpoint : List String → List χ)
    (s : String) (model : String) (ask_if_ok : Bool) (max_tokens : Nat)
    (tokenize : String → List Nat) (inputs : List String) :
    gpt3_complete endpoint (.str s) model ask_if_ok max_tokens tokenize
        inputs =
      gpt3_complete endpoint (.list [s]) model ask_if_ok max_tokens tokenize
        inputs := rfl

/-- C7: with `ask_if_ok = True`, when the operator's first `'y'`/`'n'`
answer is `'n'`, `gpt3_complete` raises `UserCanceled` and performs zero
remote completion calls. -/
theorem c7_decline_cancels_before_remote (endpoint : List String → List χ)
    (texts : TextsArg) (model : String) (max_tokens : Nat)
    (tokenize : String → List Nat) (inputs : List String) (p : Nat)
    (h : prompt_loop inputs = some ("n", p)) :
    gpt3_complete endpoint texts model true max_tokens tokenize inputs =
      ⟨.userCanceled, 0⟩ := by
  unfold gpt3_complete openai_api_call_is_ok
  simp [h]

/-- Witness for C7: the operator answers `"maybe"` then `"n"`; no remote
call happens. -/
theorem c7_witness :
    gpt3_complete (fun b => b) (.list ["a", "b"]) "text-ada-001" true 7
      (fun _ => [0]) ["maybe", "n"] = ⟨.userCanceled, 0⟩ :=
  c7_decline_cancels_before_remote (fun b => b) (.list ["a", "b"])
    "text-ada-001" 7 (fun _ => [0]) ["maybe", "n"] 2 (by decide)

/-- C8: the cost-confirmation gate estimates
`num_tokens = Σ length (tokenize tᵢ) + len(texts) * max_tokens`, displays
the cost as `'unknown'` exactly when the model has no entry in the
cost-per-1000-tokens mapping, and otherwise as
`num_tokens * rate / 1000` rounded to two decimal places. -/
theorem c8_cost_estimate (tokenize : String → List Nat) (model : String)
    (texts : List String) (max_tokens : Nat) (inputs : List String) :
    (openai_api_call_is_ok tokenize model texts max_tokens inputs).num_tokens
        = (texts.map fun t => (tokenize t).length).sum
          + texts.length * max_tokens
    ∧ ((openai_api_call_is_ok tokenize model texts max_tokens inputs).cost
        = .unknown ↔ model_to_cost_per_1k model = none)
    ∧ ∀ q, model_to_cost_per_1k model = some q →
        (openai_api_call_is_ok tokenize model texts max_tokens inputs).cost
          = .amount (round2
              ((((texts.map fun t => (tokenize t).length).sum
                + texts.length * max_tokens : Nat) : ℚ) * q / 1000)) := by
  unfold openai_api_call_is_ok
  rcases hc : model_to_cost_per_1k model with _ | q <;>
    rcases hp : prompt_loop inputs with _ | ⟨ans, n⟩ <;>
      simp [hc, hp, List.map_map, Function.comp_def]

/-- Witness for C8 at two texts, a two-token tokenizer, the ada model and
`max_tokens = 3`: 10 tokens at the ada rate of $0.0004 per 1000 tokens. -/
theorem c8_witness :
    (openai_api_call_is_ok (fun _ => [0, 1]) "text-ada-001" ["a", "b"] 3
        ["y"]).num_tokens
      = (["a", "b"].map fun t => ((fun _ => [(0 : Nat), 1]) t).length).sum
        + ["a", "b"].length * 3
    ∧ ((openai_api_call_is_ok (fun _ => [0, 1]) "text-ada-001" ["a", "b"] 3
        ["y"]).cost = .unknown ↔
          model_to_cost_per_1k "text-ada-001" = none)
    ∧ (openai_api_call_is_ok (fun _ => [0, 1]) "text-ada-001" ["a", "b"] 3
        ["y"]).cost
        = .amount (round2
            ((((["a", "b"].map fun t =>
                  ((fun _ => [(0 : Nat), 1]) t).length).sum
              + ["a", "b"].length * 3 : Nat) : ℚ) * (4 / 10000) / 1000)) :=
  ⟨(c8_cost_estimate (fun _ => [0, 1]) "text-ada-001" ["a", "b"] 3 ["y"]).1,
   (c8_cost_estimate (fun _ => [0, 1]) "text-ada-001" ["a", "b"] 3 ["y"]).2.1,
   (c8_cost_estimate (fun _ => [0, 1]) "text-ada-001" ["a", "b"] 3 ["y"]).2.2
     (4 / 10000) rfl⟩

/-- C10: operator inputs other than exactly `"y"` or `"n"` re-present the
prompt; the gate proceeds if and only if the first `"y"`/`"n"` input is
`"y"`, raises `UserCanceled` if and only if it is `"n"`, and presents the
prompt once per rejected input plus once for the deciding one. -/
theorem c10_gate_first_answer (tokenize : String → List Nat) (model : String)
    (texts : List String) (max_tokens : Nat) (pre : List String)
    (hpre : ∀ x ∈ pre, x ≠ "y" ∧ x ≠ "n") (ans : String)
    (hans : ans = "y" ∨ ans = "n") (rest : List String) :
    ((openai_api_call_is_ok tokenize model texts max_tokens
        (pre ++ ans :: rest)).outcome = .proceeded ↔ ans = "y")
    ∧ ((openai_api_call_is_ok tokenize model texts max_tokens
        (pre ++ ans :: rest)).outcome = .userCanceled ↔ ans = "n")
    ∧ (openai_api_call_is_ok tokenize model texts max_tokens
        (pre ++ ans :: rest)).numPrompts = pre.length + 1 := by
  unfold openai_api_call_is_ok
  rw [prompt_loop_append pre hpre ans hans rest]
  rcases hans with h | h <;> subst h <;> simp

/-- Witness for C10: two rejected answers then `"y"`: the gate proceeds
after three prompts. -/
theorem c10_witness :
    ((openai_api_call_is_ok (fun _ => []) "text-curie-001" ["t"] 1
        (["", "yes"] ++ "y" :: ["n"])).outcome = .proceeded ↔ "y" = "y")
    ∧ ((openai_api_call_is_ok (fun _ => []) "text-curie-001" ["t"] 1
        (["", "yes"] ++ "y" :: ["n"])).outcome = .userCanceled ↔ "y" = "n")
    ∧ (openai_api_call_is_ok (fun _ => []) "text-curie-001" ["t"] 1
        (["", "yes"] ++ "y" :: ["n"])).numPrompts = ["", "yes"].length + 1 :=
  c10_gate_first_answer (fun _ => []) "text-curie-001" ["t"] 1 ["", "yes"]
    (by decide) "y" (Or.inl rfl) ["n"]

end LMC
